import Mathlib

/-!
Verification of the GitGuard AI review workflow (graph.py, src/agent.py).

The two workflow nodes (`reviewer_node`, `poster_node`) are embedded as pure
functions parameterised by their external collaborators (diff fetcher, LLM
analysis, posting tool), each returning either a collaborator error or a
partial-state update together with the list of collaborator calls performed.
The LangGraph runner (edges, interrupt-before-poster, resume) is embedded as
a small fuel-based engine over the concrete edge list of graph.py.
-/

/-- Modelled from the spec: `state.py` is not part of the sources; the spec
defines Comment severity as the enumeration \x7bcritical, major, minor, nitpick\x7d. -/
inductive Severity where
  | critical
  | major
  | minor
  | nitpick
  deriving DecidableEq, Repr

/-- Python string value of a severity, as it appears in a serialized payload. -/
def Severity.pyStr : Severity → String
  | .critical => "critical"
  | .major => "major"
  | .minor => "minor"
  | .nitpick => "nitpick"

/-- Modelled from the spec: `state.py` is not part of the sources; the spec
defines a Comment entity with `file_path`, `line_number`, `body`, `severity`. -/
structure PullRequestComment where
  file_path : String
  line_number : Int
  body : String
  severity : Severity
  deriving DecidableEq, Repr

/-- A comment serialized as a plain mapping (Pydantic `model_dump`): the same
four fields with the severity rendered as its string value. -/
structure CommentDict where
  file_path : String
  line_number : Int
  body : String
  severity : String
  deriving DecidableEq, Repr

/-- Pydantic `model_dump` of a comment into a plain mapping. -/
def PullRequestComment.model_dump (c : PullRequestComment) : CommentDict :=
  ⟨c.file_path, c.line_number, c.body, c.severity.pyStr⟩

/-- Modelled from the spec: `state.py` is not part of the sources; the spec
defines the ReviewState record with `repo_name`, `pr_number`, `pr_diff`
(optional text), `proposed_comments`, `review_approved` (defaults false) and
the append-only `messages` log of (role, text) pairs. -/
structure ReviewState where
  repo_name : String
  pr_number : Int
  pr_diff : Option String
  proposed_comments : List PullRequestComment
  review_approved : Bool
  messages : List (String × String)
  deriving DecidableEq, Repr

/-- Modelled from the spec: run start creates the state with `repo_name` and
`pr_number` set and every other field at its default. -/
def ReviewState.init (repo : String) (pr : Int) : ReviewState :=
  { repo_name := repo
    pr_number := pr
    pr_diff := none
    proposed_comments := []
    review_approved := false
    messages := [] }

/-- A partial-state update as returned by a node: `none` in a field means the
node's returned dict does not contain that key. -/
structure StateUpdate where
  pr_diff : Option String := none
  proposed_comments : Option (List PullRequestComment) := none
  review_approved : Option Bool := none
  messages : Option (List (String × String)) := none
  deriving DecidableEq, Repr

/-- Modelled from the spec: the workflow engine merges a node's partial update
into the state; `messages` is an append-only log, the other keys overwrite. -/
def applyUpdate (s : ReviewState) (u : StateUpdate) : ReviewState :=
  { s with
    pr_diff := match u.pr_diff with
      | some d => some d
      | none => s.pr_diff
    proposed_comments := u.proposed_comments.getD s.proposed_comments
    review_approved := u.review_approved.getD s.review_approved
    messages := s.messages ++ u.messages.getD [] }

/-- One call to an external collaborator, with its arguments. -/
inductive CollabCall where
  | fetchDiff (repo_name : String) (pr_number : Int)
  | analyze (repo : String) (diff : String)
  | post (repo_name : String) (pr_number : Int) (comments : List CommentDict)
  deriving DecidableEq, Repr

/-- Whether a collaborator call is a posting call. -/
def CollabCall.isPost : CollabCall → Bool
  | .post _ _ _ => true
  | _ => false

/-- Python truthiness of `current_diff` in agent.py line 36: an optional
string is truthy iff it is present and non-empty. -/
def pyTruthy : Option String → Bool
  | none => false
  | some s => !s.isEmpty

/-- The wrapper schema of agent.py lines 19-24: the LLM's structured output,
a list of identified issues. -/
structure ReviewResponse where
  comments : List PullRequestComment
  deriving DecidableEq, Repr

/-- `poster_node` of graph.py lines 18-45: branch on `review_approved`, then
on emptiness of `proposed_comments`; in the posting branch serialize each
comment with `model_dump`, invoke the posting tool once and wrap its result.
The posting tool is passed in as `post_pr_review`; the returned list records
the collaborator calls performed. -/
def poster_node {ε : Type}
    (post_pr_review : String → Int → List CommentDict → Except ε String)
    (state : ReviewState) : Except ε (StateUpdate × List CollabCall) :=
  if !state.review_approved then
    .ok ({ messages := some [("ai", "❌ Review NOT approved by human. No comments posted.")] }, [])
  else if state.proposed_comments.isEmpty then
    .ok ({ messages := some [("ai", "✅ No issues found. Skipping comment posting.")] }, [])
  else
    let comments_payload := state.proposed_comments.map PullRequestComment.model_dump
    match post_pr_review state.repo_name state.pr_number comments_payload with
    | .error e => .error e
    | .ok result =>
        .ok ({ messages := some [("ai", "🚀 " ++ result)] },
          [CollabCall.post state.repo_name state.pr_number comments_payload])

/-- `reviewer_node` of agent.py lines 27-73: take the diff from the state, or
fetch it via `fetch_pr_diff` when it is falsy; invoke the analysis chain on
(repo, diff); return the update for `pr_diff` and `proposed_comments`. The
collaborators are passed in; the returned list records the calls performed. -/
def reviewer_node {ε : Type}
    (fetch_pr_diff : String → Int → Except ε String)
    (analyze : String → String → Except ε ReviewResponse)
    (state : ReviewState) : Except ε (StateUpdate × List CollabCall) :=
  let fetchCalls : List CollabCall :=
    if pyTruthy state.pr_diff then []
    else [CollabCall.fetchDiff state.repo_name state.pr_number]
  let diffRes : Except ε String :=
    if pyTruthy state.pr_diff then .ok (state.pr_diff.getD "")
    else fetch_pr_diff state.repo_name state.pr_number
  match diffRes with
  | .error e => .error e
  | .ok current_diff =>
    match analyze state.repo_name current_diff with
    | .error e => .error e
    | .ok result =>
        .ok ({ pr_diff := some current_diff, proposed_comments := some result.comments },
          fetchCalls ++ [CollabCall.analyze state.repo_name current_diff])

/-- The three external collaborators of the workflow. -/
structure Oracles (ε : Type) where
  fetch_pr_diff : String → Int → Except ε String
  analyze : String → String → Except ε ReviewResponse
  post_pr_review : String → Int → List CommentDict → Except ε String

/-- The edge list of graph.py lines 56-58: START → reviewer → poster → END. -/
def gg_edges : List (String × String) :=
  [("__start__", "reviewer"), ("reviewer", "poster"), ("poster", "__end__")]

/-- graph.py line 68: the runner is compiled with `interrupt_before=["poster"]`. -/
def gg_interrupt_before : List String := ["poster"]

/-- Successor of a node in the edge list. -/
def nextNode (n : String) : Option String :=
  (gg_edges.find? (fun e => e.1 == n)).map (fun e => e.2)

/-- Execute one named node of the graph on the current state, producing the
merged state and the collaborator calls made. -/
def execNode {ε : Type} (o : Oracles ε) (name : String) (s : ReviewState) :
    Except ε (ReviewState × List CollabCall) :=
  if name == "reviewer" then
    (reviewer_node o.fetch_pr_diff o.analyze s).map (fun p => (applyUpdate s p.1, p.2))
  else if name == "poster" then
    (poster_node o.post_pr_review s).map (fun p => (applyUpdate s p.1, p.2))
  else .ok (s, [])

/-- Outcome of driving the runner: suspended at an interrupt, finished at END,
failed with a collaborator error, or stuck (malformed graph / out of fuel). -/
inductive RunOutcome (ε : Type) where
  | suspended (atNode : String) (s : ReviewState) (trace : List CollabCall)
  | finished (s : ReviewState) (trace : List CollabCall)
  | failed (e : ε)
  | stuck
  deriving DecidableEq, Repr

/-- The runner loop: at each position, stop at END, suspend before a node in
`gg_interrupt_before` (unless this step is the resumption target), otherwise
execute the node and follow its single outgoing edge. -/
def engineRun {ε : Type} (o : Oracles ε) :
    Nat → String → Bool → ReviewState → List CollabCall → RunOutcome ε
  | 0, _, _, _, _ => .stuck
  | Nat.succ fuel, pos, skip, s, acc =>
    if pos == "__end__" then .finished s acc
    else if gg_interrupt_before.contains pos && !skip then .suspended pos s acc
    else
      match execNode o pos s with
      | .error e => .failed e
      | .ok (s', cs) =>
        match nextNode pos with
        | none => .stuck
        | some nxt => engineRun o fuel nxt false s' (acc ++ cs)

/-- A fresh invocation of the compiled graph: start at the successor of START. -/
def invokeGraph {ε : Type} (o : Oracles ε) (s₀ : ReviewState) : RunOutcome ε :=
  match nextNode "__start__" with
  | some n => engineRun o 4 n false s₀ []
  | none => .stuck

/-- Resuming a suspended run: continue at the interrupted node ("poster"),
skipping the interrupt for that node only. -/
def resumeGraph {ε : Type} (o : Oracles ε) (s : ReviewState) : RunOutcome ε :=
  engineRun o 4 "poster" true s []

/-- A concrete comment, used to instantiate universally quantified theorems. -/
def sampleComment : PullRequestComment :=
  ⟨"app/db.py", 7, "String concatenation in a SQL query enables SQL injection.", .critical⟩

/-- A concrete diff text. -/
def sampleDiff : String :=
  "+ query = \"SELECT * FROM users WHERE id = \" + user_id"

/-- A stub diff-fetching collaborator that always succeeds. -/
def stubFetch : String → Int → Except String String :=
  fun _ _ => .ok sampleDiff

/-- A stub analysis collaborator that always reports one critical issue. -/
def stubAnalyze : String → String → Except String ReviewResponse :=
  fun _ _ => .ok ⟨[sampleComment]⟩

/-- A stub posting collaborator that reports how many comments were posted. -/
def stubPost : String → Int → List CommentDict → Except String String :=
  fun _ _ cs => .ok ("Successfully posted " ++ toString cs.length ++ " comments.")

/-- The three stub collaborators bundled. -/
def oStub : Oracles String :=
  ⟨stubFetch, stubAnalyze, stubPost⟩

/-- Collaborators that always fail, for error-propagation instances. -/
def failingOracles : Oracles String :=
  ⟨fun _ _ => .error "fetch failed", fun _ _ => .error "llm failed",
    fun _ _ _ => .error "post failed"⟩

/-- A concrete state as it looks after review and human approval: diff and one
comment present, `review_approved` set. -/
def approvedState : ReviewState :=
  { repo_name := "acme/widgets"
    pr_number := 42
    pr_diff := some sampleDiff
    proposed_comments := [sampleComment]
    review_approved := true
    messages := [] }

/-- The update the Poster returns on `approvedState` with the stub tool. -/
def posterUpdateSample : StateUpdate :=
  { messages := some [("ai", "🚀 Successfully posted 1 comments.")] }

/-- The collaborator calls the Poster performs on `approvedState`. -/
def posterTraceSample : List CollabCall :=
  [CollabCall.post "acme/widgets" 42 [PullRequestComment.model_dump sampleComment]]

/-- The update the Review Generator returns on a fresh state with the stubs. -/
def reviewerUpdateSample : StateUpdate :=
  { pr_diff := some sampleDiff, proposed_comments := some [sampleComment] }

/-- The collaborator calls the Review Generator performs on a fresh state. -/
def reviewerTraceSample : List CollabCall :=
  [CollabCall.fetchDiff "acme/widgets" 42, CollabCall.analyze "acme/widgets" sampleDiff]

/-- Unfolding of a fresh invocation: the engine executes exactly the reviewer
node and then suspends at "poster" (or fails), by computation on the fuel. -/
theorem invokeGraph_eq {ε : Type} (o : Oracles ε) (s₀ : ReviewState) :
    invokeGraph o s₀ =
      match execNode o "reviewer" s₀ with
      | .error e => .failed e
      | .ok (s', cs) => .suspended "poster" s' cs := rfl

/-- Unfolding of a resume: the engine executes exactly the poster node (the
interrupt being skipped at the resumption target) and then finishes. -/
theorem resumeGraph_eq {ε : Type} (o : Oracles ε) (s : ReviewState) :
    resumeGraph o s =
      match execNode o "poster" s with
      | .error e => .failed e
      | .ok (s', cs) => .finished s' cs := rfl

/-- C1: for every state with `review_approved` false, the Poster returns a
single rejection message and performs no collaborator call, whatever the
proposed comments and the posting tool. -/
theorem poster_rejects_without_approval {ε : Type}
    (post_pr_review : String → Int → List CommentDict → Except ε String)
    (s : ReviewState) (h : s.review_approved = false) :
    poster_node post_pr_review s =
      .ok ({ messages := some [("ai", "❌ Review NOT approved by human. No comments posted.")] }, []) := by
  simp [poster_node, h]

/-- Witness for C1 at a fresh (unapproved) state and the stub posting tool. -/
theorem poster_rejects_without_approval_witness :
    poster_node stubPost (ReviewState.init "acme/widgets" 42) =
      .ok ({ messages := some [("ai", "❌ Review NOT approved by human. No comments posted.")] }, []) :=
  poster_rejects_without_approval stubPost (ReviewState.init "acme/widgets" 42) rfl

/-- C2: for every state with `review_approved` true and no proposed comments,
the Poster returns a single "no issues" message and performs no collaborator
call. -/
theorem poster_no_issues_when_empty {ε : Type}
    (post_pr_review : String → Int → List CommentDict → Except ε String)
    (s : ReviewState) (h1 : s.review_approved = true) (h2 : s.proposed_comments = []) :
    poster_node post_pr_review s =
      .ok ({ messages := some [("ai", "✅ No issues found. Skipping comment posting.")] }, []) := by
  simp [poster_node, h1, h2]

/-- Witness for C2 at an approved state with an empty comment list. -/
theorem poster_no_issues_when_empty_witness :
    poster_node stubPost { ReviewState.init "acme/widgets" 42 with review_approved := true } =
      .ok ({ messages := some [("ai", "✅ No issues found. Skipping comment posting.")] }, []) :=
  poster_no_issues_when_empty stubPost
    { ReviewState.init "acme/widgets" 42 with review_approved := true } rfl rfl

/-- C3: for every state with `review_approved` true and a non-empty comment
list, the Poster calls the posting collaborator exactly once, on
(repo_name, pr_number) and the in-order `model_dump` serialization of every
proposed comment, and wraps the collaborator's result behind the success
marker. -/
theorem poster_posts_once_when_approved {ε : Type}
    (post_pr_review : String → Int → List CommentDict → Except ε String)
    (s : ReviewState) (r : String)
    (h1 : s.review_approved = true) (h2 : s.proposed_comments ≠ [])
    (h3 : post_pr_review s.repo_name s.pr_number
        (s.proposed_comments.map PullRequestComment.model_dump) = .ok r) :
    poster_node post_pr_review s =
      .ok ({ messages := some [("ai", "🚀 " ++ r)] },
        [CollabCall.post s.repo_name s.pr_number
          (s.proposed_comments.map PullRequestComment.model_dump)]) := by
  simp [poster_node, h1, h2, h3]

/-- Witness for C3 at the approved one-comment state and the stub tool. -/
theorem poster_posts_once_when_approved_witness :
    poster_node stubPost approvedState =
      .ok ({ messages := some [("ai", "🚀 Successfully posted 1 comments.")] },
        [CollabCall.post "acme/widgets" 42 [PullRequestComment.model_dump sampleComment]]) :=
  poster_posts_once_when_approved stubPost approvedState
    "Successfully posted 1 comments." rfl (by decide) rfl

/-- C4: for every state, the Review Generator fetches the diff exactly when
`pr_diff` is not populated (and not at all when it is), invokes the analysis
collaborator on that diff, and returns an update containing exactly `pr_diff`
and `proposed_comments` — the analysis result's comment list verbatim, so a
"no issues" analysis yields the empty list rather than an error. -/
theorem reviewer_populates_diff_and_comments {ε : Type}
    (fetch_pr_diff : String → Int → Except ε String)
    (analyze : String → String → Except ε ReviewResponse)
    (s : ReviewState) :
    (pyTruthy s.pr_diff = true →
      ∀ resp : ReviewResponse, analyze s.repo_name (s.pr_diff.getD "") = .ok resp →
        reviewer_node fetch_pr_diff analyze s =
          .ok ({ pr_diff := some (s.pr_diff.getD ""), proposed_comments := some resp.comments },
            [CollabCall.analyze s.repo_name (s.pr_diff.getD "")])) ∧
    (pyTruthy s.pr_diff = false →
      ∀ (d : String) (resp : ReviewResponse),
        fetch_pr_diff s.repo_name s.pr_number = .ok d →
        analyze s.repo_name d = .ok resp →
        reviewer_node fetch_pr_diff analyze s =
          .ok ({ pr_diff := some d, proposed_comments := some resp.comments },
            [CollabCall.fetchDiff s.repo_name s.pr_number, CollabCall.analyze s.repo_name d])) := by
  constructor
  · intro h resp ha
    simp [reviewer_node, h, ha]
  · intro h d resp hf ha
    simp [reviewer_node, h, hf, ha]

/-- Witness for C4: a fresh state (diff absent) with the stub collaborators;
also an empty-diff analysis instance yielding the empty comment list. -/
theorem reviewer_populates_diff_and_comments_witness :
    reviewer_node stubFetch stubAnalyze (ReviewState.init "acme/widgets" 42) =
      .ok ({ pr_diff := some sampleDiff, proposed_comments := some [sampleComment] },
        [CollabCall.fetchDiff "acme/widgets" 42, CollabCall.analyze "acme/widgets" sampleDiff]) :=
  (reviewer_populates_diff_and_comments stubFetch stubAnalyze
    (ReviewState.init "acme/widgets" 42)).2 rfl sampleDiff ⟨[sampleComment]⟩ rfl rfl

/-- C5: the compiled runner is the single linear path
start → reviewer → poster → end with the sole interrupt before "poster": a
fresh invocation executes the reviewer and then unconditionally suspends at
"poster" without running it, and a resume executes the poster and finishes
without suspending again. -/
theorem runner_linear_single_pass {ε : Type} (o : Oracles ε) :
    nextNode "__start__" = some "reviewer" ∧
    nextNode "reviewer" = some "poster" ∧
    nextNode "poster" = some "__end__" ∧
    gg_interrupt_before = ["poster"] ∧
    (∀ (s₀ : ReviewState) (u : StateUpdate) (c : List CollabCall),
      reviewer_node o.fetch_pr_diff o.analyze s₀ = .ok (u, c) →
        invokeGraph o s₀ = .suspended "poster" (applyUpdate s₀ u) c) ∧
    (∀ (s : ReviewState) (u : StateUpdate) (c : List CollabCall),
      poster_node o.post_pr_review s = .ok (u, c) →
        resumeGraph o s = .finished (applyUpdate s u) c) := by
  refine ⟨by decide, by decide, by decide, rfl, ?_, ?_⟩
  · intro s₀ u c h
    rw [invokeGraph_eq]
    simp [execNode, h, Except.map]
  · intro s u c h
    rw [resumeGraph_eq]
    simp [execNode, h, Except.map]

/-- Witness for C5: fresh invocation and resume with the stub collaborators. -/
theorem runner_linear_single_pass_witness :
    invokeGraph oStub (ReviewState.init "acme/widgets" 42) =
      .suspended "poster"
        (applyUpdate (ReviewState.init "acme/widgets" 42) reviewerUpdateSample)
        reviewerTraceSample ∧
    resumeGraph oStub approvedState =
      .finished (applyUpdate approvedState posterUpdateSample) posterTraceSample := by
  constructor
  · exact (runner_linear_single_pass oStub).2.2.2.2.1
      (ReviewState.init "acme/widgets" 42) reviewerUpdateSample reviewerTraceSample rfl
  · exact (runner_linear_single_pass oStub).2.2.2.2.2
      approvedState posterUpdateSample posterTraceSample rfl

/-- Complete case analysis of a successful Poster run: it is one of the three
branches of graph.py lines 25-45, with the update and trace each produces. -/
theorem poster_node_ok_cases {ε : Type}
    (post_pr_review : String → Int → List CommentDict → Except ε String)
    (s : ReviewState) (u : StateUpdate) (c : List CollabCall)
    (h : poster_node post_pr_review s = .ok (u, c)) :
    (u = { messages := some [("ai", "❌ Review NOT approved by human. No comments posted.")] } ∧ c = []) ∨
    (u = { messages := some [("ai", "✅ No issues found. Skipping comment posting.")] } ∧ c = []) ∨
    (∃ r, post_pr_review s.repo_name s.pr_number
        (s.proposed_comments.map PullRequestComment.model_dump) = .ok r ∧
      u = { messages := some [("ai", "🚀 " ++ r)] } ∧
      c = [CollabCall.post s.repo_name s.pr_number
        (s.proposed_comments.map PullRequestComment.model_dump)]) := by
  simp only [poster_node] at h
  split at h
  · simp only [Except.ok.injEq, Prod.mk.injEq] at h
    exact Or.inl ⟨h.1.symm, h.2.symm⟩
  · split at h
    · simp only [Except.ok.injEq, Prod.mk.injEq] at h
      exact Or.inr (Or.inl ⟨h.1.symm, h.2.symm⟩)
    · split at h
      next e heq => simp at h
      next r heq =>
        simp only [Except.ok.injEq, Prod.mk.injEq] at h
        exact Or.inr (Or.inr ⟨r, heq, h.1.symm, h.2.symm⟩)

/-- Complete case analysis of a successful Review Generator run: the update
always carries a diff and the analysis result's comments, and the trace is an
analysis call, preceded by a fetch call exactly when the diff was falsy. -/
theorem reviewer_node_ok_cases {ε : Type}
    (fetch_pr_diff : String → Int → Except ε String)
    (analyze : String → String → Except ε ReviewResponse)
    (s : ReviewState) (u : StateUpdate) (c : List CollabCall)
    (h : reviewer_node fetch_pr_diff analyze s = .ok (u, c)) :
    ∃ (d : String) (resp : ReviewResponse),
      u = { pr_diff := some d, proposed_comments := some resp.comments } ∧
      analyze s.repo_name d = .ok resp ∧
      ((pyTruthy s.pr_diff = true ∧ d = s.pr_diff.getD "" ∧
          c = [CollabCall.analyze s.repo_name d]) ∨
       (pyTruthy s.pr_diff = false ∧ fetch_pr_diff s.repo_name s.pr_number = .ok d ∧
          c = [CollabCall.fetchDiff s.repo_name s.pr_number,
            CollabCall.analyze s.repo_name d])) := by
  simp only [reviewer_node] at h
  cases hp : pyTruthy s.pr_diff with
  | true =>
    simp only [hp, if_true] at h
    split at h
    next e heq => simp at h
    next resp heq =>
      simp only [Except.ok.injEq, Prod.mk.injEq, List.nil_append] at h
      exact ⟨s.pr_diff.getD "", resp, h.1.symm, heq, Or.inl ⟨rfl, rfl, h.2.symm⟩⟩
  | false =>
    simp only [hp, Bool.false_eq_true, if_false] at h
    split at h
    next e heq => simp at h
    next d heq1 =>
      split at h
      next e heq => simp at h
      next resp heq2 =>
        simp only [Except.ok.injEq, Prod.mk.injEq, List.cons_append, List.nil_append] at h
        exact ⟨d, resp, h.1.symm, heq2, Or.inr ⟨rfl, heq1, h.2.symm⟩⟩

/-- C6: resuming a suspended run executes only the Poster; the Poster's update
never contains `pr_diff`, `proposed_comments` or `review_approved`, so the
post-resume state keeps the suspended run's diff and comments, and the trace
holds no reviewer collaborator call — only posting calls. -/
theorem resume_frame_condition {ε : Type} (o : Oracles ε) (s : ReviewState)
    (u : StateUpdate) (c : List CollabCall)
    (h : poster_node o.post_pr_review s = .ok (u, c)) :
    u.pr_diff = none ∧ u.proposed_comments = none ∧ u.review_approved = none ∧
    resumeGraph o s = .finished (applyUpdate s u) c ∧
    (applyUpdate s u).pr_diff = s.pr_diff ∧
    (applyUpdate s u).proposed_comments = s.proposed_comments ∧
    (∀ call ∈ c, call.isPost = true) := by
  have hres : resumeGraph o s = .finished (applyUpdate s u) c := by
    rw [resumeGraph_eq]
    simp [execNode, h, Except.map]
  have hu : u.pr_diff = none ∧ u.proposed_comments = none ∧ u.review_approved = none ∧
      ∀ call ∈ c, call.isPost = true := by
    rcases poster_node_ok_cases o.post_pr_review s u c h with
      ⟨hu, hc⟩ | ⟨hu, hc⟩ | ⟨r, _, hu, hc⟩ <;> subst hu <;> subst hc <;>
      simp [CollabCall.isPost]
  exact ⟨hu.1, hu.2.1, hu.2.2.1, hres, by simp [applyUpdate, hu.1],
    by simp [applyUpdate, hu.2.1], hu.2.2.2⟩

/-- Witness for C6 at the approved one-comment state with the stub tool. -/
theorem resume_frame_condition_witness :
    posterUpdateSample.pr_diff = none ∧ posterUpdateSample.proposed_comments = none ∧
    posterUpdateSample.review_approved = none ∧
    resumeGraph oStub approvedState =
      .finished (applyUpdate approvedState posterUpdateSample) posterTraceSample ∧
    (applyUpdate approvedState posterUpdateSample).pr_diff = approvedState.pr_diff ∧
    (applyUpdate approvedState posterUpdateSample).proposed_comments =
      approvedState.proposed_comments ∧
    (∀ call ∈ posterTraceSample, call.isPost = true) :=
  resume_frame_condition oStub approvedState posterUpdateSample posterTraceSample rfl

/-- C7: `review_approved` defaults to false at run start and is never written
by a workflow step — neither the Review Generator's update nor the Poster's
update contains the field — so only the external mutation during suspension
can change it. -/
theorem review_approved_external_only {ε : Type} (o : Oracles ε) :
    (∀ (repo : String) (pr : Int), (ReviewState.init repo pr).review_approved = false) ∧
    (∀ (s : ReviewState) (u : StateUpdate) (c : List CollabCall),
      reviewer_node o.fetch_pr_diff o.analyze s = .ok (u, c) → u.review_approved = none) ∧
    (∀ (s : ReviewState) (u : StateUpdate) (c : List CollabCall),
      poster_node o.post_pr_review s = .ok (u, c) → u.review_approved = none) := by
  refine ⟨fun _ _ => rfl, ?_, ?_⟩
  · intro s u c h
    obtain ⟨d, resp, hu, -, -⟩ := reviewer_node_ok_cases o.fetch_pr_diff o.analyze s u c h
    subst hu
    rfl
  · intro s u c h
    rcases poster_node_ok_cases o.post_pr_review s u c h with
      ⟨hu, -⟩ | ⟨hu, -⟩ | ⟨r, -, hu, -⟩ <;> subst hu <;> rfl

/-- Witness for C7: the default flag and the two stub-run updates. -/
theorem review_approved_external_only_witness :
    (ReviewState.init "acme/widgets" 42).review_approved = false ∧
    reviewerUpdateSample.review_approved = none ∧
    posterUpdateSample.review_approved = none := by
  refine ⟨(review_approved_external_only oStub).1 "acme/widgets" 42, ?_, ?_⟩
  · exact (review_approved_external_only oStub).2.1 (ReviewState.init "acme/widgets" 42)
      reviewerUpdateSample reviewerTraceSample rfl
  · exact (review_approved_external_only oStub).2.2 approvedState posterUpdateSample
      posterTraceSample rfl

/-- C8: `pr_diff` is empty at run start; a successful Review Generator run
always writes it, and keeps the stored value whenever one was already
populated; the Poster's update never contains `pr_diff`, so the later step of
a run cannot replace it. -/
theorem pr_diff_set_once_then_immutable {ε : Type} (o : Oracles ε) :
    (∀ (repo : String) (pr : Int), (ReviewState.init repo pr).pr_diff = none) ∧
    (∀ (s : ReviewState) (u : StateUpdate) (c : List CollabCall),
      reviewer_node o.fetch_pr_diff o.analyze s = .ok (u, c) →
        (∃ d, u.pr_diff = some d) ∧
        (pyTruthy s.pr_diff = true → u.pr_diff = s.pr_diff)) ∧
    (∀ (s : ReviewState) (u : StateUpdate) (c : List CollabCall),
      poster_node o.post_pr_review s = .ok (u, c) →
        u.pr_diff = none ∧ (applyUpdate s u).pr_diff = s.pr_diff) := by
  refine ⟨fun _ _ => rfl, ?_, ?_⟩
  · intro s u c h
    obtain ⟨d, resp, hu, -, hcase⟩ := reviewer_node_ok_cases o.fetch_pr_diff o.analyze s u c h
    subst hu
    refine ⟨⟨d, rfl⟩, ?_⟩
    intro hp
    rcases hcase with ⟨-, hd, -⟩ | ⟨hfalse, -, -⟩
    · subst hd
      cases hs : s.pr_diff with
      | none =>
        rw [hs] at hp
        simp [pyTruthy] at hp
      | some x => simp
    · simp [hp] at hfalse
  · intro s u c h
    rcases poster_node_ok_cases o.post_pr_review s u c h with
      ⟨hu, -⟩ | ⟨hu, -⟩ | ⟨r, -, hu, -⟩ <;> subst hu <;> exact ⟨rfl, rfl⟩

/-- Witness for C8: the default diff, the stub-run reviewer and poster
updates, and preservation across the poster merge. -/
theorem pr_diff_set_once_then_immutable_witness :
    (ReviewState.init "acme/widgets" 42).pr_diff = none ∧
    (∃ d, reviewerUpdateSample.pr_diff = some d) ∧
    posterUpdateSample.pr_diff = none ∧
    (applyUpdate approvedState posterUpdateSample).pr_diff = approvedState.pr_diff := by
  refine ⟨(pr_diff_set_once_then_immutable oStub).1 "acme/widgets" 42, ?_, ?_, ?_⟩
  · exact ((pr_diff_set_once_then_immutable oStub).2.1 (ReviewState.init "acme/widgets" 42)
      reviewerUpdateSample reviewerTraceSample rfl).1
  · exact ((pr_diff_set_once_then_immutable oStub).2.2 approvedState posterUpdateSample
      posterTraceSample rfl).1
  · exact ((pr_diff_set_once_then_immutable oStub).2.2 approvedState posterUpdateSample
      posterTraceSample rfl).2

/-- C9: every collaborator failure — posting in the Poster, diff fetch or
analysis in the Review Generator — is returned unchanged by the enclosing
step, with no catch, retry or fallback, and the runner surfaces it to its
invoker as a failed run. -/
theorem collaborator_errors_propagate {ε : Type} (o : Oracles ε) :
    (∀ (s : ReviewState) (e : ε), s.review_approved = true → s.proposed_comments ≠ [] →
      o.post_pr_review s.repo_name s.pr_number
          (s.proposed_comments.map PullRequestComment.model_dump) = .error e →
      poster_node o.post_pr_review s = .error e) ∧
    (∀ (s : ReviewState) (e : ε), pyTruthy s.pr_diff = false →
      o.fetch_pr_diff s.repo_name s.pr_number = .error e →
      reviewer_node o.fetch_pr_diff o.analyze s = .error e) ∧
    (∀ (s : ReviewState) (e : ε), pyTruthy s.pr_diff = true →
      o.analyze s.repo_name (s.pr_diff.getD "") = .error e →
      reviewer_node o.fetch_pr_diff o.analyze s = .error e) ∧
    (∀ (s : ReviewState) (d : String) (e : ε), pyTruthy s.pr_diff = false →
      o.fetch_pr_diff s.repo_name s.pr_number = .ok d →
      o.analyze s.repo_name d = .error e →
      reviewer_node o.fetch_pr_diff o.analyze s = .error e) ∧
    (∀ (s : ReviewState) (e : ε), poster_node o.post_pr_review s = .error e →
      resumeGraph o s = .failed e) ∧
    (∀ (s : ReviewState) (e : ε), reviewer_node o.fetch_pr_diff o.analyze s = .error e →
      invokeGraph o s = .failed e) := by
  refine ⟨?_, ?_, ?_, ?_, ?_, ?_⟩
  · intro s e h1 h2 h3
    simp [poster_node, h1, h2, h3]
  · intro s e hp hf
    simp [reviewer_node, hp, hf]
  · intro s e hp ha
    simp [reviewer_node, hp, ha]
  · intro s d e hp hf ha
    simp [reviewer_node, hp, hf, ha]
  · intro s e h
    rw [resumeGraph_eq]
    simp [execNode, h, Except.map]
  · intro s e h
    rw [invokeGraph_eq]
    simp [execNode, h, Except.map]

/-- Witness for C9: the always-failing collaborators on the approved state
and on a fresh state, at node level and through the runner. -/
theorem collaborator_errors_propagate_witness :
    poster_node failingOracles.post_pr_review approvedState = .error "post failed" ∧
    reviewer_node failingOracles.fetch_pr_diff failingOracles.analyze
      (ReviewState.init "acme/widgets" 42) = .error "fetch failed" ∧
    resumeGraph failingOracles approvedState = .failed "post failed" ∧
    invokeGraph failingOracles (ReviewState.init "acme/widgets" 42) = .failed "fetch failed" := by
  refine ⟨?_, ?_, ?_, ?_⟩
  · exact (collaborator_errors_propagate failingOracles).1 approvedState "post failed"
      rfl (by decide) rfl
  · exact (collaborator_errors_propagate failingOracles).2.1
      (ReviewState.init "acme/widgets" 42) "fetch failed" rfl rfl
  · exact (collaborator_errors_propagate failingOracles).2.2.2.2.1 approvedState "post failed"
      ((collaborator_errors_propagate failingOracles).1 approvedState "post failed"
        rfl (by decide) rfl)
  · exact (collaborator_errors_propagate failingOracles).2.2.2.2.2
      (ReviewState.init "acme/widgets" 42) "fetch failed"
      ((collaborator_errors_propagate failingOracles).2.1
        (ReviewState.init "acme/widgets" 42) "fetch failed" rfl rfl)

/-- C10: a state whose `pr_diff` is the empty string is treated exactly like
one whose diff is absent — the fetch decision is Python truthiness — so the
Review Generator invokes the diff fetcher on it. -/
theorem empty_diff_treated_as_absent {ε : Type}
    (fetch_pr_diff : String → Int → Except ε String)
    (analyze : String → String → Except ε ReviewResponse)
    (s : ReviewState) :
    pyTruthy (some "") = false ∧
    reviewer_node fetch_pr_diff analyze { s with pr_diff := some "" } =
      reviewer_node fetch_pr_diff analyze { s with pr_diff := none } ∧
    (∀ (d : String) (resp : ReviewResponse),
      fetch_pr_diff s.repo_name s.pr_number = .ok d →
      analyze s.repo_name d = .ok resp →
      reviewer_node fetch_pr_diff analyze { s with pr_diff := some "" } =
        .ok ({ pr_diff := some d, proposed_comments := some resp.comments },
          [CollabCall.fetchDiff s.repo_name s.pr_number,
            CollabCall.analyze s.repo_name d])) := by
  refine ⟨rfl, rfl, ?_⟩
  intro d resp hf ha
  show reviewer_node fetch_pr_diff analyze { s with pr_diff := none } = _
  simp [reviewer_node, pyTruthy, hf, ha]

/-- Witness for C10: the stub collaborators on a state carrying an empty
diff string. -/
theorem empty_diff_treated_as_absent_witness :
    reviewer_node stubFetch stubAnalyze
      { ReviewState.init "acme/widgets" 42 with pr_diff := some "" } =
      .ok ({ pr_diff := some sampleDiff, proposed_comments := some [sampleComment] },
        [CollabCall.fetchDiff "acme/widgets" 42,
          CollabCall.analyze "acme/widgets" sampleDiff]) :=
  (empty_diff_treated_as_absent stubFetch stubAnalyze (ReviewState.init "acme/widgets" 42)).2.2
    sampleDiff ⟨[sampleComment]⟩ rfl rfl
